import Mathlib

/-!
Shallow embedding of `src/server.js` (visual-testing-api): the
`POST /api/capture` and `POST /api/compare` request handlers, their
storage-path derivation, validation, file-system effects and the
pixel-diff computation, together with theorems settling the spec claims.
-/

namespace VisualTest

/-- An RGBA pixel (one byte per channel, held as `Nat`). -/
structure Pixel where
  r : Nat
  g : Nat
  b : Nat
  a : Nat
deriving DecidableEq, Repr

/-- A decoded raster image: dimensions and row-major pixel data.
Models a PNG decoded by `PNG.sync.read` (pngjs). -/
structure Image where
  width : Nat
  height : Nat
  data : List Pixel
deriving DecidableEq, Repr

/-- A file-system path, as the list of its segments. -/
abbrev Path := List String

/-- Model of the file system visible to the server: the set of existing
directories and the files (all files written or read by this service are
PNG images). -/
structure FS where
  dirs : List Path
  files : List (Path × Image)
deriving DecidableEq, Repr

/-- Model of `fs.existsSync` on a directory path. -/
def FS.dirExists (fs : FS) (p : Path) : Bool :=
  fs.dirs.contains p

/-- Model of `fs.readFileSync` + `PNG.sync.read`: look the file up. -/
def FS.readFile (fs : FS) (p : Path) : Option Image :=
  (fs.files.find? (fun e => decide (e.1 = p))).map (fun e => e.2)

/-- Model of `fs.existsSync` on a file path. -/
def FS.fileExists (fs : FS) (p : Path) : Bool :=
  (fs.readFile p).isSome

/-- The directory containing a path. -/
def parentDir (p : Path) : Path := p.dropLast

/-- Model of `if (!fs.existsSync(dir)) fs.mkdirSync(dir, ...)` —
the guarded, idempotent directory creation used by the capture handler
(`src/server.js` lines 62–64). -/
def FS.mkdirIfAbsent (fs : FS) (p : Path) : FS :=
  if fs.dirExists p then fs else { fs with dirs := p :: fs.dirs }

/-- Model of `fs.writeFileSync(p, bytes)`: succeeds (replacing any previous file at
`p`) when the containing directory exists, and throws `ENOENT` otherwise.
`writeFileSync` never creates directories. -/
def FS.writeFileSync (fs : FS) (p : Path) (img : Image) : Except String FS :=
  if fs.dirExists (parentDir p) then
    Except.ok { fs with files := (p, img) :: fs.files.filter (fun e => decide (e.1 ≠ p)) }
  else
    Except.error "ENOENT"

/-- Split a character list at `/` separators (structural recursion over
the characters, accumulating the current segment reversed). -/
def splitAux : List Char → List Char → List String
  | [], acc => [String.mk acc.reverse]
  | c :: cs, acc =>
    if c = '/' then String.mk acc.reverse :: splitAux cs []
    else splitAux cs (c :: acc)

/-- Split one argument of `path.join` into segments, dropping empty
segments and `.` as Node's normalization does. -/
def splitSegs (s : String) : List String :=
  (splitAux s.data []).filter (fun seg => seg != "" && seg != ".")

/-- One step of Node path normalization: `..` removes the last segment
(clamped at the root), any other segment is appended. -/
def normStep (acc : List String) (seg : String) : List String :=
  if seg = ".." then acc.dropLast else acc ++ [seg]

/-- Node `path` normalization over a segment list: resolve `..`. -/
def normalizePath (segs : List String) : List String :=
  segs.foldl normStep []

/-- Model of `path.join(base, part1, part2, ...)`: concatenate the split parts onto
an (already-normalized) base path and normalize. -/
def joinPath (base : Path) (parts : List String) : Path :=
  normalizePath (base ++ (parts.map splitSegs).flatten)

/-- Model of `__dirname` (the directory holding `server.js`). -/
def appDir : Path := ["app"]

/-- The path `path.join(__dirname, 'uploads')` (`src/server.js` lines 59, 110). -/
def uploadsDir : Path := joinPath appDir ["uploads"]

/-- The path `path.join(baseDir, time)` (`src/server.js` line 60). -/
def timeDirOf (t : String) : Path := joinPath uploadsDir [t]

/-- The path `path.join(baseDir, 'diff')` (`src/server.js` line 61). -/
def diffDirPath : Path := joinPath uploadsDir ["diff"]

/-- The capture destination `path.join(timeDir, testId + '.png')`
(`src/server.js` lines 66–67). -/
def captureFilePath (t tid : String) : Path :=
  joinPath (timeDirOf t) [tid ++ ".png"]

/-- The path `path.join(baseDir, 'before', testId + '.png')` (line 111). -/
def beforeFilePath (tid : String) : Path :=
  joinPath uploadsDir ["before", tid ++ ".png"]

/-- The path `path.join(baseDir, 'after', testId + '.png')` (line 112). -/
def afterFilePath (tid : String) : Path :=
  joinPath uploadsDir ["after", tid ++ ".png"]

/-- The path `path.join(baseDir, 'diff', testId + '.png')` (line 113). -/
def diffFilePath (tid : String) : Path :=
  joinPath uploadsDir ["diff", tid ++ ".png"]

/-- Whether path `p` lies under directory `base`. -/
def isUnder (base p : Path) : Bool :=
  decide (p.take base.length = base)

/-- Absolute difference of two channel values. -/
def chanDiff (a b : Nat) : Nat := (a - b) + (b - a)

/-- Modelled from the spec: the pixel-diff library (pixelmatch) is an
external collaborator whose source is not in this repository; the spec
describes it as classifying each pixel pair by "a perceptual
color-distance threshold (default 0.1 on a normalized 0-1 scale)".  We
model the distance as the squared channel distance, zero exactly for
identical pixels. -/
def colorDeltaSq (p q : Pixel) : Nat :=
  chanDiff p.r q.r ^ 2 + chanDiff p.g q.g ^ 2 +
    chanDiff p.b q.b ^ 2 + chanDiff p.a q.a ^ 2

/-- The largest possible `colorDeltaSq`. -/
def maxColorSq : Nat := 4 * (255 * 255)

/-- Modelled from the spec: a pixel pair is classified "different" when
its normalized color distance exceeds the threshold `0.1`, i.e. when
`colorDeltaSq / maxColorSq > 0.1 ^ 2`, cleared of denominators. -/
def pixelDiffers (p q : Pixel) : Bool :=
  decide (colorDeltaSq p q * 100 > maxColorSq)

/-- The color pixelmatch uses to flag a differing pixel in the output. -/
def redPixel : Pixel := ⟨255, 0, 0, 255⟩

/-- The grayscale rendering pixelmatch uses for an unchanged pixel. -/
def grayPixel (p : Pixel) : Pixel :=
  let y := (p.r * 299 + p.g * 587 + p.b * 114) / 1000
  ⟨y, y, y, 255⟩

/-- Modelled from the spec: `pixelmatch(img1.data, img2.data, diff.data,
width, height, { threshold: 0.1 })` walks the two pixel buffers in step,
counts the pairs classified "different", and renders the diff overlay:
differing pixels are flagged (red), identical ones rendered grayscale.
Returns the count of differing pixels and the output buffer. -/
def pixelmatchRun : List Pixel → List Pixel → Nat × List Pixel
  | [], _ => (0, [])
  | _ :: _, [] => (0, [])
  | p :: ps, q :: qs =>
    let rest := pixelmatchRun ps qs
    if pixelDiffers p q then (rest.1 + 1, redPixel :: rest.2)
    else (rest.1, grayPixel p :: rest.2)

/-- The pixel-diff library call (the `width`/`height` arguments only tell
the library the buffer extent, which our buffer model carries itself). -/
def pixelmatch (d1 d2 : List Pixel) (_w _h : Nat) : Nat × List Pixel :=
  pixelmatchRun d1 d2

/-- The number of flagged (red) pixels in a diff image. -/
def flaggedCount (img : Image) : Nat :=
  img.data.countP (fun p => decide (p = redPixel))

/-- The scaled integer behind `(k / total * 100).toFixed(2)`: the value
`k / total * 100` in hundredths, rounded half-up —
`⌊10000 * k / total + 1 / 2⌋` computed in `Nat` arithmetic. -/
def toFixed2scaled (k total : Nat) : Nat :=
  (20000 * k + total) / (2 * total)

/-- Model of `(k / total * 100).toFixed(2)` — render the rounded hundredths as a
decimal string with exactly two fractional digits.  (`total` is a PNG
pixel count, hence positive: zero-dimension PNGs cannot be decoded.) -/
def toFixed2 (k total : Nat) : String :=
  let s := toFixed2scaled k total
  let frac := s % 100
  toString (s / 100) ++ "." ++
    (if frac < 10 then "0" ++ toString frac else toString frac)

/-- The spec's rounding of a quantity to two decimal places. -/
def roundTo2dp (x : ℚ) : ℚ := (round (x * 100) : ℤ) / 100

/-- The `details` field of an error response body. -/
inductive ErrDetails where
  /-- no `details` field -/
  | noDetails : ErrDetails
  /-- a `details` field holding the thrown error's message -/
  | message (msg : String) : ErrDetails
  /-- a `details` object holding `testId`, `beforeExists`, `afterExists` (lines 118-122) -/
  | missingImages (testId : String) (beforeExists afterExists : Bool) : ErrDetails
  /-- a `details` object holding both images' `width` and `height` -/
  | dims (beforeWidth beforeHeight afterWidth afterHeight : Nat) : ErrDetails
deriving DecidableEq, Repr

/-- A JSON response sent by either handler. -/
inductive ApiResponse where
  /-- an error response `res.status(status).json(...)` with `error` and `details` -/
  | err (status : Nat) (error : String) (details : ErrDetails) : ApiResponse
  /-- the capture success response: `imagePath`, `time`, `testId`, `timestamp` -/
  | captureOk (imagePath : String) (time : String) (testId : String)
      (timestamp : Nat) : ApiResponse
  /-- the compare success response: `diffUrl`, `beforeUrl`, `afterUrl`,
  `diffPercentage`, `testId` -/
  | compareOk (diffUrl beforeUrl afterUrl diffPercentage testId : String) :
      ApiResponse
deriving DecidableEq, Repr

/-- JavaScript truthiness of a possibly-absent string field: `undefined`
and the empty string are both falsy. -/
def truthy : Option String → Bool
  | Option.none => false
  | Option.some s => decide (s ≠ "")

/-- The body of a `POST /api/capture` request; each field may be absent. -/
structure CaptureBody where
  url : Option String
  time : Option String
  testId : Option String
deriving DecidableEq, Repr

/-- The body of a `POST /api/compare` request. -/
structure CompareBody where
  testId : Option String
deriving DecidableEq, Repr

/-- The browser-automation collaborator (puppeteer) and the clock, as the
environment a capture request runs in.  Each await in the handler can
resolve or throw; a thrown error carries its message. -/
structure BrowserEnv where
  /-- result of `puppeteer.launch(...)` -/
  launchResult : Except String Unit
  /-- result of `browser.newPage()` -/
  newPageResult : Except String Unit
  /-- result of `page.setViewport(...)` with the 1280x800 viewport -/
  setViewportResult : Except String Unit
  /-- result of `page.goto(url, ...)` waiting for `networkidle2`;
  a timeout after 30 seconds rejects with an error message. -/
  gotoResult : String → Except String Unit
  /-- result of `page.screenshot(...)` with `fullPage` — the rendered full-page
  image on success. -/
  screenshotResult : Except String Image
  /-- the clock `Date.now()` -/
  now : Nat

/-- Everything observable after a capture request: the response, the file
system, and how many browser sessions were launched and closed. -/
structure CaptureResult where
  response : ApiResponse
  fs : FS
  launched : Nat
  closed : Nat
deriving DecidableEq, Repr

/-- The observable outcome of a compare request. -/
structure CompareResult where
  response : ApiResponse
  fs : FS
deriving DecidableEq, Repr

/-- The `POST /api/capture` handler (`src/server.js` lines 50-103),
line by line.  Validation first; then the three `mkdirSync` calls; then
`puppeteer.launch`, `newPage`, `setViewport`, `goto`, `screenshot` (which
writes the file), `browser.close()`, and the success response.  Any
thrown error lands in the `catch`, which sends a 500 response — the
`catch` does not close the browser. -/
def captureHandler (env : BrowserEnv) (fs : FS) (body : CaptureBody) :
    CaptureResult :=
  if !truthy body.url || !truthy body.time ||
      !(["before", "after"].contains (body.time.getD "")) then
    { response := ApiResponse.err 400
        "Missing url or invalid time (must be \"before\" or \"after\")"
        ErrDetails.noDetails,
      fs := fs, launched := 0, closed := 0 }
  else if !truthy body.testId then
    { response := ApiResponse.err 400 "testId is required"
        ErrDetails.noDetails,
      fs := fs, launched := 0, closed := 0 }
  else
    let u := body.url.getD ""
    let t := body.time.getD ""
    let tid := body.testId.getD ""
    let timeDir := timeDirOf t
    let fs1 := (([uploadsDir, timeDir, diffDirPath] : List Path).foldl
      FS.mkdirIfAbsent fs)
    let filename := tid ++ ".png"
    let filepath := joinPath timeDir [filename]
    match env.launchResult with
    | Except.error e =>
      { response := ApiResponse.err 500 "Failed to capture screenshot"
          (ErrDetails.message e),
        fs := fs1, launched := 0, closed := 0 }
    | Except.ok _ =>
      match env.newPageResult with
      | Except.error e =>
        { response := ApiResponse.err 500 "Failed to capture screenshot"
            (ErrDetails.message e),
          fs := fs1, launched := 1, closed := 0 }
      | Except.ok _ =>
        match env.setViewportResult with
        | Except.error e =>
          { response := ApiResponse.err 500 "Failed to capture screenshot"
              (ErrDetails.message e),
            fs := fs1, launched := 1, closed := 0 }
        | Except.ok _ =>
          match env.gotoResult u with
          | Except.error e =>
            { response := ApiResponse.err 500
                "Failed to capture screenshot" (ErrDetails.message e),
              fs := fs1, launched := 1, closed := 0 }
          | Except.ok _ =>
            match env.screenshotResult with
            | Except.error e =>
              { response := ApiResponse.err 500
                  "Failed to capture screenshot" (ErrDetails.message e),
                fs := fs1, launched := 1, closed := 0 }
            | Except.ok img =>
              match fs1.writeFileSync filepath img with
              | Except.error e =>
                { response := ApiResponse.err 500
                    "Failed to capture screenshot" (ErrDetails.message e),
                  fs := fs1, launched := 1, closed := 0 }
              | Except.ok fs2 =>
                { response := ApiResponse.captureOk
                    ("/uploads/" ++ t ++ "/" ++ filename) t tid env.now,
                  fs := fs2, launched := 1, closed := 1 }

/-- The `POST /api/compare` handler (`src/server.js` lines 105-165),
line by line.  Validate `testId`; resolve the three paths; 404 if either
the before or the after image is absent; decode both; 400 on a dimension
mismatch; run the pixel diff; write the diff file; respond.  A thrown
error (here: the diff write failing) lands in the `catch`, which sends a
500 response. -/
def compareHandler (fs : FS) (body : CompareBody) : CompareResult :=
  if !truthy body.testId then
    { response := ApiResponse.err 400 "testId is required"
        ErrDetails.noDetails,
      fs := fs }
  else
    let tid := body.testId.getD ""
    let beforePath := beforeFilePath tid
    let afterPath := afterFilePath tid
    let diffPath := diffFilePath tid
    if !fs.fileExists beforePath || !fs.fileExists afterPath then
      { response := ApiResponse.err 404 "Before/after images not found"
          (ErrDetails.missingImages tid (fs.fileExists beforePath)
            (fs.fileExists afterPath)),
        fs := fs }
    else
      match fs.readFile beforePath, fs.readFile afterPath with
      | Option.some img1, Option.some img2 =>
        if img1.width ≠ img2.width ∨ img1.height ≠ img2.height then
          { response := ApiResponse.err 400
              "Image dimensions do not match"
              (ErrDetails.dims img1.width img1.height img2.width
                img2.height),
            fs := fs }
        else
          let pm := pixelmatch img1.data img2.data img1.width img1.height
          let diffImg : Image :=
            { width := img1.width, height := img1.height, data := pm.2 }
          match fs.writeFileSync diffPath diffImg with
          | Except.error e =>
            { response := ApiResponse.err 500 "Failed to compare images"
                (ErrDetails.message e),
              fs := fs }
          | Except.ok fs2 =>
            { response := ApiResponse.compareOk
                ("/uploads/diff/" ++ tid ++ ".png")
                ("/uploads/before/" ++ tid ++ ".png")
                ("/uploads/after/" ++ tid ++ ".png")
                (toFixed2 pm.1 (img1.width * img1.height)) tid,
              fs := fs2 }
      | _, _ =>
        { response := ApiResponse.err 500 "Failed to compare images"
            (ErrDetails.message "read failed"),
          fs := fs }

/-- A sample 2-by-1 image used in concrete witness states. -/
def imgA : Image := ⟨2, 1, [⟨0, 0, 0, 255⟩, ⟨0, 0, 0, 255⟩]⟩

/-- A second 2-by-1 image, differing from `imgA` in its second pixel. -/
def imgB : Image := ⟨2, 1, [⟨0, 0, 0, 255⟩, ⟨255, 255, 255, 255⟩]⟩

/-- A 1-by-1 image (dimensions differ from `imgA`). -/
def imgC : Image := ⟨1, 1, [⟨0, 0, 0, 255⟩]⟩

/-- The empty file system: no directories, no files. -/
def fsEmpty : FS := ⟨[], []⟩

/-- A file system already holding the three storage directories and no
files. -/
def fsReady : FS :=
  ⟨[["app", "uploads"], ["app", "uploads", "before"],
    ["app", "uploads", "after"], ["app", "uploads", "diff"]], []⟩

/-- A state holding only the before image for test `t1`. -/
def fsOnlyBefore : FS := ⟨fsReady.dirs, [(beforeFilePath "t1", imgA)]⟩

/-- A state holding before/after images of mismatched dimensions. -/
def fsMismatch : FS :=
  ⟨fsReady.dirs, [(beforeFilePath "t1", imgA), (afterFilePath "t1", imgC)]⟩

/-- A state holding identical before/after images for `t1`. -/
def fsIdentical : FS :=
  ⟨fsReady.dirs, [(beforeFilePath "t1", imgA), (afterFilePath "t1", imgA)]⟩

/-- A state holding differing before/after images for `t1`. -/
def fsDiffering : FS :=
  ⟨fsReady.dirs, [(beforeFilePath "t1", imgA), (afterFilePath "t1", imgB)]⟩

/-- A state where both images exist but the `diff` directory does not. -/
def fsNoDiffDir : FS :=
  ⟨[["app", "uploads"], ["app", "uploads", "before"],
    ["app", "uploads", "after"]],
   [(beforeFilePath "t1", imgA), (afterFilePath "t1", imgA)]⟩

/-- A browser environment in which every step succeeds; the screenshot
renders `imgA`. -/
def envOkA : BrowserEnv :=
  ⟨Except.ok (), Except.ok (), Except.ok (), fun _ => Except.ok (),
    Except.ok imgA, 7⟩

/-- A browser environment in which every step succeeds; the screenshot
renders `imgB`. -/
def envOkB : BrowserEnv :=
  ⟨Except.ok (), Except.ok (), Except.ok (), fun _ => Except.ok (),
    Except.ok imgB, 8⟩

/-- A browser environment in which navigation rejects (the 30-second
navigation timeout elapsing). -/
def envGotoFails : BrowserEnv :=
  ⟨Except.ok (), Except.ok (), Except.ok (), fun _ =>
    Except.error "Navigation timeout of 30000 ms exceeded",
    Except.ok imgA, 9⟩

/-! ### Helper lemmas -/

theorem appendPng_ne_dotdot (tid : String) : tid ++ ".png" ≠ ".." := by
  intro h
  have h1 : (tid ++ ".png").length = (".." : String).length := by rw [h]
  rw [String.length_append] at h1
  have h2 : (".png" : String).length = 4 := rfl
  have h3 : (".." : String).length = 2 := rfl
  omega

theorem normalizePath_append_single (l : List String) (s : String)
    (hs : s ≠ "..") : normalizePath (l ++ [s]) = normalizePath l ++ [s] := by
  simp [normalizePath, List.foldl_append, normStep, hs]

theorem captureFilePath_plain (t tid : String)
    (ht : t = "before" ∨ t = "after")
    (hsplit : splitSegs (tid ++ ".png") = [tid ++ ".png"]) :
    captureFilePath t tid = ["app", "uploads", t, tid ++ ".png"] := by
  have hne := appendPng_ne_dotdot tid
  rcases ht with rfl | rfl
  · rw [captureFilePath, joinPath]
    simp only [List.map, hsplit, List.flatten]
    rw [show (timeDirOf "before" : Path) = ["app", "uploads", "before"]
          from rfl, List.append_nil, normalizePath_append_single _ _ hne]
    rfl
  · rw [captureFilePath, joinPath]
    simp only [List.map, hsplit, List.flatten]
    rw [show (timeDirOf "after" : Path) = ["app", "uploads", "after"]
          from rfl, List.append_nil, normalizePath_append_single _ _ hne]
    rfl


theorem mkdirIfAbsent_files (fs : FS) (p : Path) :
    (fs.mkdirIfAbsent p).files = fs.files := by
  rw [FS.mkdirIfAbsent]
  split <;> rfl

theorem mkdirIfAbsent_readFile (fs : FS) (p q : Path) :
    (fs.mkdirIfAbsent p).readFile q = fs.readFile q := by
  rw [FS.readFile, FS.readFile, mkdirIfAbsent_files]

theorem dirExists_mkdirIfAbsent_self (fs : FS) (p : Path) :
    (fs.mkdirIfAbsent p).dirExists p = true := by
  rw [FS.mkdirIfAbsent]
  split
  · assumption
  · simp [FS.dirExists]

theorem dirExists_mkdirIfAbsent_mono (fs : FS) (p q : Path)
    (h : fs.dirExists p = true) : (fs.mkdirIfAbsent q).dirExists p = true := by
  rw [FS.mkdirIfAbsent]
  split
  · exact h
  · simp only [FS.dirExists, List.contains_cons, Bool.or_eq_true]
    exact Or.inr h

theorem writeFileSync_readFile_self (fs fs2 : FS) (p : Path) (img : Image)
    (h : fs.writeFileSync p img = Except.ok fs2) :
    fs2.readFile p = Option.some img := by
  rw [FS.writeFileSync] at h
  split at h
  · cases h
    simp [FS.readFile, List.find?]
  · cases h

theorem find?_filter_ne (l : List (Path × Image)) (p q : Path)
    (hqp : q ≠ p) :
    (l.filter (fun e => decide (e.1 ≠ p))).find?
        (fun e => decide (e.1 = q)) =
      l.find? (fun e => decide (e.1 = q)) := by
  rw [List.find?_filter]
  congr 1
  funext a
  by_cases hq : a.1 = q
  · have hp : decide (a.1 = p) = false := by
      simp only [decide_eq_false_iff_not]
      rw [hq]
      exact hqp
    simp [hp, hq, hqp]
  · simp [hq]

theorem writeFileSync_readFile_other (fs fs2 : FS) (p q : Path)
    (img : Image) (h : fs.writeFileSync p img = Except.ok fs2)
    (hne : q ≠ p) : fs2.readFile q = fs.readFile q := by
  rw [FS.writeFileSync] at h
  split at h
  · cases h
    simp only [FS.readFile, List.find?]
    rw [show (decide (p = q)) = false from decide_eq_false fun h => hne h.symm]
    rw [find?_filter_ne _ _ _ hne]
  · cases h

theorem pixelDiffers_self (p : Pixel) : pixelDiffers p p = false := by
  simp [pixelDiffers, colorDeltaSq, chanDiff, maxColorSq]

theorem pixelmatchRun_self (d : List Pixel) :
    pixelmatchRun d d = (0, d.map grayPixel) := by
  induction d with
  | nil => rfl
  | cons p ps ih => simp [pixelmatchRun, pixelDiffers_self, ih]

theorem grayPixel_ne_red (p : Pixel) : grayPixel p ≠ redPixel := by
  rw [grayPixel, redPixel]
  intro h
  rw [Pixel.mk.injEq] at h
  omega

theorem flaggedCount_map_gray (w h : Nat) (d : List Pixel) :
    flaggedCount ⟨w, h, d.map grayPixel⟩ = 0 := by
  rw [flaggedCount]
  rw [List.countP_eq_zero]
  intro p hp
  rw [List.mem_map] at hp
  obtain ⟨q, _, rfl⟩ := hp
  simpa using grayPixel_ne_red q

theorem toFixed2scaled_zero (total : Nat) : toFixed2scaled 0 total = 0 := by
  rw [toFixed2scaled]
  rcases Nat.eq_zero_or_pos total with h | h
  · simp [h]
  · rw [Nat.mul_zero, Nat.zero_add]
    exact Nat.div_eq_of_lt (by omega)

theorem toFixed2_zero (total : Nat) : toFixed2 0 total = "0.00" := by
  rw [toFixed2, toFixed2scaled_zero]
  rfl

theorem toFixed2scaled_eq_round (k total : Nat) (h : 0 < total) :
    (toFixed2scaled k total : ℤ) =
      round ((k : ℚ) / (total : ℚ) * 100 * 100) := by
  have htQ : (total : ℚ) ≠ 0 := Nat.cast_ne_zero.mpr h.ne'
  rw [round_eq]
  have key : (k : ℚ) / (total : ℚ) * 100 * 100 + 1 / 2 =
      ((20000 * k + total : ℕ) : ℚ) / ((2 * total : ℕ) : ℚ) := by
    push_cast
    field_simp
    ring
  rw [key, ← Int.natCast_floor_eq_floor (by positivity),
    Nat.floor_div_eq_div]
  rfl

theorem toFixed2_represents (k total : Nat) (h : 0 < total) :
    ((toFixed2scaled k total : ℚ)) / 100 =
      roundTo2dp ((k : ℚ) / (total : ℚ) * 100) := by
  rw [roundTo2dp, ← toFixed2scaled_eq_round k total h]
  push_cast
  ring


/-! ### Claim theorems -/

/-- C3: for every Compare request with a present (non-empty) `testId`, if
the before image or the after image at the deterministic paths for that
`testId` is absent, the handler responds 404 "Before/after images not
found" with details reporting, for each of the two sides, whether it
exists, and the file system is untouched (no diff file is written, no
comparison is attempted). -/
theorem compare_notFound_when_missing (fs : FS) (tid : String)
    (htid : tid ≠ "")
    (hmiss : fs.fileExists (beforeFilePath tid) = false ∨
      fs.fileExists (afterFilePath tid) = false) :
    compareHandler fs ⟨Option.some tid⟩ =
      { response := ApiResponse.err 404 "Before/after images not found"
          (ErrDetails.missingImages tid
            (fs.fileExists (beforeFilePath tid))
            (fs.fileExists (afterFilePath tid))),
        fs := fs } := by
  have ht : truthy (Option.some tid) = true := by simp [truthy, htid]
  rw [compareHandler]
  rw [if_neg (by simp [ht])]
  simp only [Option.getD_some]
  rcases hmiss with h | h <;> rw [if_pos (by simp [h])]

/-- Witness for C3: a state holding only the before image of `t1`. -/
theorem compare_notFound_when_missing_w :
    compareHandler fsOnlyBefore ⟨Option.some "t1"⟩ =
      { response := ApiResponse.err 404 "Before/after images not found"
          (ErrDetails.missingImages "t1"
            (fsOnlyBefore.fileExists (beforeFilePath "t1"))
            (fsOnlyBefore.fileExists (afterFilePath "t1"))),
        fs := fsOnlyBefore } :=
  compare_notFound_when_missing fsOnlyBefore "t1" (by decide)
    (Or.inr (by decide))

/-- C4: for every Compare request where both before and after images
exist but their decoded widths or heights differ, the handler responds
400 "Image dimensions do not match" with details reporting both images'
width and height, and the file system is untouched (no diff file is
written). -/
theorem compare_dimension_mismatch (fs : FS) (tid : String)
    (img1 img2 : Image) (htid : tid ≠ "")
    (hb : fs.readFile (beforeFilePath tid) = Option.some img1)
    (ha : fs.readFile (afterFilePath tid) = Option.some img2)
    (hdim : img1.width ≠ img2.width ∨ img1.height ≠ img2.height) :
    compareHandler fs ⟨Option.some tid⟩ =
      { response := ApiResponse.err 400 "Image dimensions do not match"
          (ErrDetails.dims img1.width img1.height img2.width img2.height),
        fs := fs } := by
  have ht : truthy (Option.some tid) = true := by simp [truthy, htid]
  have hbe : fs.fileExists (beforeFilePath tid) = true := by
    rw [FS.fileExists, hb]
    rfl
  have hae : fs.fileExists (afterFilePath tid) = true := by
    rw [FS.fileExists, ha]
    rfl
  rw [compareHandler]
  rw [if_neg (by simp [ht])]
  simp only [Option.getD_some]
  rw [if_neg (by simp [hbe, hae])]
  rw [hb, ha]
  show (if img1.width ≠ img2.width ∨ img1.height ≠ img2.height
    then _ else _) = _
  rw [if_pos hdim]

/-- Witness for C4: before is 2-by-1, after is 1-by-1. -/
theorem compare_dimension_mismatch_w :
    compareHandler fsMismatch ⟨Option.some "t1"⟩ =
      { response := ApiResponse.err 400 "Image dimensions do not match"
          (ErrDetails.dims imgA.width imgA.height imgC.width imgC.height),
        fs := fsMismatch } :=
  compare_dimension_mismatch fsMismatch "t1" imgA imgC (by decide)
    (by decide) (by decide) (Or.inl (by decide))


/-- For a valid `testId` whose before/after images both exist with equal
dimensions, and with the diff directory present, the compare handler
succeeds: the diff write goes through and the response carries the three
URLs and `toFixed2` of the differing-pixel count over the pixel count. -/
theorem compare_success_char (fs : FS) (tid : String) (img1 img2 : Image)
    (htid : tid ≠ "")
    (hb : fs.readFile (beforeFilePath tid) = Option.some img1)
    (ha : fs.readFile (afterFilePath tid) = Option.some img2)
    (hw : img1.width = img2.width) (hh : img1.height = img2.height)
    (hdir : fs.dirExists (parentDir (diffFilePath tid)) = true) :
    ∃ fs2, fs.writeFileSync (diffFilePath tid)
        ⟨img1.width, img1.height,
          (pixelmatch img1.data img2.data img1.width img1.height).2⟩ =
        Except.ok fs2 ∧
      compareHandler fs ⟨Option.some tid⟩ =
        { response := ApiResponse.compareOk
            ("/uploads/diff/" ++ tid ++ ".png")
            ("/uploads/before/" ++ tid ++ ".png")
            ("/uploads/after/" ++ tid ++ ".png")
            (toFixed2
              (pixelmatch img1.data img2.data img1.width img1.height).1
              (img1.width * img1.height)) tid,
          fs := fs2 } := by
  have ht : truthy (Option.some tid) = true := by simp [truthy, htid]
  have hbe : fs.fileExists (beforeFilePath tid) = true := by
    rw [FS.fileExists, hb]
    rfl
  have hae : fs.fileExists (afterFilePath tid) = true := by
    rw [FS.fileExists, ha]
    rfl
  have hex : ∃ fs2, fs.writeFileSync (diffFilePath tid)
      ⟨img1.width, img1.height,
        (pixelmatch img1.data img2.data img1.width img1.height).2⟩ =
      Except.ok fs2 := by
    rw [FS.writeFileSync, if_pos hdir]
    exact ⟨_, rfl⟩
  obtain ⟨fs2, hwrite⟩ := hex
  refine ⟨fs2, hwrite, ?_⟩
  rw [compareHandler]
  rw [if_neg (by simp [ht])]
  simp only [Option.getD_some]
  rw [if_neg (by simp [hbe, hae])]
  rw [hb, ha]
  show (if img1.width ≠ img2.width ∨ img1.height ≠ img2.height
    then _ else _) = _
  rw [if_neg (by push_neg; exact ⟨hw, hh⟩)]
  rw [hwrite]

/-- C2: for every successful Compare on a before/after pair of identical
dimensions in which the pixel-diff library classifies exactly `k` pixel
pairs as different, the returned `diffPercentage` is the decimal string
`toFixed2 k (w*h)`, whose underlying scaled value is exactly
`k / (w*h) * 100` rounded to two decimal places (`roundTo2dp`). -/
theorem compare_diffPercentage (fs : FS) (tid : String)
    (img1 img2 : Image) (k : Nat) (htid : tid ≠ "")
    (hb : fs.readFile (beforeFilePath tid) = Option.some img1)
    (ha : fs.readFile (afterFilePath tid) = Option.some img2)
    (hw : img1.width = img2.width) (hh : img1.height = img2.height)
    (hdir : fs.dirExists (parentDir (diffFilePath tid)) = true)
    (hk : (pixelmatch img1.data img2.data img1.width img1.height).1 = k)
    (hpos : 0 < img1.width * img1.height) :
    (compareHandler fs ⟨Option.some tid⟩).response =
      ApiResponse.compareOk ("/uploads/diff/" ++ tid ++ ".png")
        ("/uploads/before/" ++ tid ++ ".png")
        ("/uploads/after/" ++ tid ++ ".png")
        (toFixed2 k (img1.width * img1.height)) tid ∧
    ((toFixed2scaled k (img1.width * img1.height) : ℚ)) / 100 =
      roundTo2dp ((k : ℚ) / ((img1.width * img1.height : ℕ) : ℚ) * 100) := by
  obtain ⟨fs2, hwrite, hres⟩ :=
    compare_success_char fs tid img1 img2 htid hb ha hw hh hdir
  constructor
  · rw [hres, hk]
  · exact toFixed2_represents k _ hpos

/-- Witness for C2: `imgA` and `imgB` differ in exactly one of two
pixels, giving `diffPercentage` `"50.00"` = `toFixed2 1 2`. -/
theorem compare_diffPercentage_w :
    (compareHandler fsDiffering ⟨Option.some "t1"⟩).response =
      ApiResponse.compareOk ("/uploads/diff/" ++ "t1" ++ ".png")
        ("/uploads/before/" ++ "t1" ++ ".png")
        ("/uploads/after/" ++ "t1" ++ ".png")
        (toFixed2 1 (imgA.width * imgA.height)) "t1" ∧
    ((toFixed2scaled 1 (imgA.width * imgA.height) : ℚ)) / 100 =
      roundTo2dp ((1 : ℚ) / ((imgA.width * imgA.height : ℕ) : ℚ) * 100) :=
  compare_diffPercentage fsDiffering "t1" imgA imgB 1 (by decide)
    (by decide) (by decide) (by decide) (by decide) (by decide) (by decide)
    (by decide)

/-- C7: for every pair of identical before/after images, Compare succeeds
with `diffPercentage` the string `"0.00"`, and the persisted diff image
flags zero pixels as different. -/
theorem compare_identical_zero_diff (fs : FS) (tid : String) (img : Image)
    (htid : tid ≠ "")
    (hb : fs.readFile (beforeFilePath tid) = Option.some img)
    (ha : fs.readFile (afterFilePath tid) = Option.some img)
    (hdir : fs.dirExists (parentDir (diffFilePath tid)) = true)
    (_hpos : 0 < img.width * img.height) :
    ∃ fs2,
      compareHandler fs ⟨Option.some tid⟩ =
        { response := ApiResponse.compareOk
            ("/uploads/diff/" ++ tid ++ ".png")
            ("/uploads/before/" ++ tid ++ ".png")
            ("/uploads/after/" ++ tid ++ ".png") "0.00" tid,
          fs := fs2 } ∧
      fs2.readFile (diffFilePath tid) =
        Option.some ⟨img.width, img.height, img.data.map grayPixel⟩ ∧
      flaggedCount ⟨img.width, img.height, img.data.map grayPixel⟩ = 0 := by
  obtain ⟨fs2, hwrite, hres⟩ :=
    compare_success_char fs tid img img htid hb ha rfl rfl hdir
  have hpm1 : (pixelmatch img.data img.data img.width img.height).1 = 0 := by
    rw [pixelmatch, pixelmatchRun_self]
  have hpm2 : (pixelmatch img.data img.data img.width img.height).2 =
      img.data.map grayPixel := by
    rw [pixelmatch, pixelmatchRun_self]
  refine ⟨fs2, ?_, ?_, flaggedCount_map_gray _ _ _⟩
  · rw [hres, hpm1, toFixed2_zero]
  · have hread := writeFileSync_readFile_self fs fs2 _ _ hwrite
    rw [hpm2] at hread
    exact hread

/-- Witness for C7: identical before/after images for `t1`. -/
theorem compare_identical_zero_diff_w :
    ∃ fs2,
      compareHandler fsIdentical ⟨Option.some "t1"⟩ =
        { response := ApiResponse.compareOk
            ("/uploads/diff/" ++ "t1" ++ ".png")
            ("/uploads/before/" ++ "t1" ++ ".png")
            ("/uploads/after/" ++ "t1" ++ ".png") "0.00" "t1",
          fs := fs2 } ∧
      fs2.readFile (diffFilePath "t1") =
        Option.some ⟨imgA.width, imgA.height, imgA.data.map grayPixel⟩ ∧
      flaggedCount ⟨imgA.width, imgA.height, imgA.data.map grayPixel⟩ = 0 :=
  compare_identical_zero_diff fsIdentical "t1" imgA (by decide) (by decide)
    (by decide) (by decide) (by decide)


/-- C5: capture validation order and effects.  (1) When `url` is falsy,
`time` is falsy, or `time` is not a member of `before`/`after`, the
handler answers 400 with the url/time message — whatever `testId` is
(the url/time check runs first) — with the file system untouched (no
directory created) and no browser session launched.  (2) When the
url/time check passes but `testId` is falsy (absent or empty), the
handler answers 400 "testId is required", again with the file system
untouched and no browser session launched. -/
theorem capture_validation_order (env : BrowserEnv) (fs : FS)
    (body : CaptureBody) :
    ((!truthy body.url || !truthy body.time ||
        !(["before", "after"].contains (body.time.getD ""))) = true →
      captureHandler env fs body =
        { response := ApiResponse.err 400
            "Missing url or invalid time (must be \"before\" or \"after\")"
            ErrDetails.noDetails,
          fs := fs, launched := 0, closed := 0 }) ∧
    ((!truthy body.url || !truthy body.time ||
        !(["before", "after"].contains (body.time.getD ""))) = false →
      truthy body.testId = false →
      captureHandler env fs body =
        { response := ApiResponse.err 400 "testId is required"
            ErrDetails.noDetails,
          fs := fs, launched := 0, closed := 0 }) := by
  constructor
  · intro h
    rw [captureHandler, if_pos h]
  · intro h1 h2
    rw [captureHandler, if_neg (by rw [h1]; decide), if_pos (by rw [h2]; rfl)]

/-- Witness for C5: a request with no `url` (even though `testId` is also
missing, the url/time error wins), and a request with valid url/time but
an empty `testId`. -/
theorem capture_validation_order_w :
    captureHandler envOkA fsReady
        ⟨Option.none, Option.some "before", Option.some "t1"⟩ =
      { response := ApiResponse.err 400
          "Missing url or invalid time (must be \"before\" or \"after\")"
          ErrDetails.noDetails,
        fs := fsReady, launched := 0, closed := 0 } ∧
    captureHandler envOkA fsReady
        ⟨Option.some "http://a", Option.some "before", Option.some ""⟩ =
      { response := ApiResponse.err 400 "testId is required"
          ErrDetails.noDetails,
        fs := fsReady, launched := 0, closed := 0 } :=
  ⟨(capture_validation_order envOkA fsReady _).1 (by decide),
    (capture_validation_order envOkA fsReady _).2 (by decide) (by decide)⟩

/-- C10: an empty `testId` is rejected exactly like an absent one, by
both handlers, with the same 400 "testId is required" response, before
any file-system effect (the state is returned untouched, nothing is
launched): the public interface never distinguishes the two. -/
theorem empty_testId_like_missing (env : BrowserEnv) (fs : FS)
    (url time : String) :
    compareHandler fs ⟨Option.some ""⟩ =
      { response := ApiResponse.err 400 "testId is required"
          ErrDetails.noDetails, fs := fs } ∧
    compareHandler fs ⟨Option.none⟩ =
      { response := ApiResponse.err 400 "testId is required"
          ErrDetails.noDetails, fs := fs } ∧
    captureHandler env fs
        ⟨Option.some url, Option.some time, Option.some ""⟩ =
      captureHandler env fs
        ⟨Option.some url, Option.some time, Option.none⟩ ∧
    (url ≠ "" → (time = "before" ∨ time = "after") →
      captureHandler env fs
          ⟨Option.some url, Option.some time, Option.some ""⟩ =
        { response := ApiResponse.err 400 "testId is required"
            ErrDetails.noDetails,
          fs := fs, launched := 0, closed := 0 }) := by
  refine ⟨?_, ?_, ?_, ?_⟩
  · rw [compareHandler, if_pos (by decide)]
  · rw [compareHandler, if_pos (by decide)]
  · by_cases h : (!truthy (Option.some url) || !truthy (Option.some time) ||
        !(["before", "after"].contains ((Option.some time).getD ""))) = true
    · rw [captureHandler, if_pos h, captureHandler, if_pos h]
    · rw [captureHandler, if_neg h, if_pos (by rfl),
        captureHandler, if_neg h, if_pos (by rfl)]
  · intro hu ht
    have hc : (!truthy (Option.some url) || !truthy (Option.some time) ||
        !(["before", "after"].contains ((Option.some time).getD ""))) =
          false := by
      rcases ht with rfl | rfl <;> simp [truthy, hu]
    rw [captureHandler, if_neg (by rw [hc]; decide), if_pos (by rfl)]

/-- Witness for C10 at concrete inputs. -/
theorem empty_testId_like_missing_w :
    compareHandler fsReady ⟨Option.some ""⟩ =
      { response := ApiResponse.err 400 "testId is required"
          ErrDetails.noDetails, fs := fsReady } ∧
    compareHandler fsReady ⟨Option.none⟩ =
      { response := ApiResponse.err 400 "testId is required"
          ErrDetails.noDetails, fs := fsReady } ∧
    captureHandler envOkA fsReady
        ⟨Option.some "http://a", Option.some "before", Option.some ""⟩ =
      captureHandler envOkA fsReady
        ⟨Option.some "http://a", Option.some "before", Option.none⟩ ∧
    captureHandler envOkA fsReady
        ⟨Option.some "http://a", Option.some "before", Option.some ""⟩ =
      { response := ApiResponse.err 400 "testId is required"
          ErrDetails.noDetails,
        fs := fsReady, launched := 0, closed := 0 } :=
  have h := empty_testId_like_missing envOkA fsReady "http://a" "before"
  ⟨h.1, h.2.1, h.2.2.1, h.2.2.2 (by decide) (Or.inl rfl)⟩

/-- C1 (code bug): a Capture request that passes validation and launches
a browser, and whose navigation then fails (the 30-second timeout
rejecting), answers 500 `CaptureError` — but the browser session is
never closed: `browser.close()` (`src/server.js` line 86) lies only on
the success path and the catch block does not release the session.  At
this input one session was launched and zero were closed when the 500
response was sent. -/
theorem capture_browser_leak_on_goto_failure :
    captureHandler envGotoFails fsReady
        ⟨Option.some "http://example.com", Option.some "before",
          Option.some "t1"⟩ =
      { response := ApiResponse.err 500 "Failed to capture screenshot"
          (ErrDetails.message "Navigation timeout of 30000 ms exceeded"),
        fs := fsReady, launched := 1, closed := 0 } := by
  decide

/-- C9: `testId` is embedded verbatim as the file-name stem of every
derived storage path (definitional equations below), with no
sanitization; consequently a non-empty `testId` containing `../`
sequences yields derived paths that escape the `uploads` storage
directory entirely (here they normalize to `app/escape.png`, a sibling
of `uploads`). -/
theorem testId_path_traversal :
    (∀ t tid : String,
      captureFilePath t tid = joinPath (timeDirOf t) [tid ++ ".png"]) ∧
    (∀ tid : String,
      beforeFilePath tid = joinPath uploadsDir ["before", tid ++ ".png"]) ∧
    ∃ tid : String, tid ≠ "" ∧
      captureFilePath "before" tid = ["app", "escape.png"] ∧
      isUnder uploadsDir (captureFilePath "before" tid) = false ∧
      isUnder uploadsDir (beforeFilePath tid) = false ∧
      isUnder uploadsDir (afterFilePath tid) = false ∧
      isUnder uploadsDir (diffFilePath tid) = false :=
  ⟨fun _ _ => rfl, fun _ => rfl, "../../escape", by decide⟩


theorem mkdirIfAbsent_idem (fs : FS) (p : Path) :
    (fs.mkdirIfAbsent p).mkdirIfAbsent p = fs.mkdirIfAbsent p := by
  conv_lhs => rw [FS.mkdirIfAbsent]
  rw [if_pos (dirExists_mkdirIfAbsent_self fs p)]

/-- For a valid request (`url` truthy, `time` a member of
`before`/`after`, `testId` non-empty and a plain file-name stem) in an
environment where launch, page setup, navigation and screenshot all
succeed, the capture handler — from any prior file-system state —
creates the directories, writes the screenshot at the deterministic
path, closes the browser, and answers with the matching `imagePath`;
no other file is touched. -/
theorem capture_success_char (env : BrowserEnv) (fs : FS)
    (url t tid : String) (img : Image)
    (hu : url ≠ "") (ht : t = "before" ∨ t = "after") (htid : tid ≠ "")
    (hsplit : splitSegs (tid ++ ".png") = [tid ++ ".png"])
    (hl : env.launchResult = Except.ok ())
    (hn : env.newPageResult = Except.ok ())
    (hv : env.setViewportResult = Except.ok ())
    (hg : env.gotoResult url = Except.ok ())
    (hs : env.screenshotResult = Except.ok img) :
    ∃ fs2,
      captureHandler env fs
          ⟨Option.some url, Option.some t, Option.some tid⟩ =
        { response := ApiResponse.captureOk
            ("/uploads/" ++ t ++ "/" ++ (tid ++ ".png")) t tid env.now,
          fs := fs2, launched := 1, closed := 1 } ∧
      fs2.readFile (captureFilePath t tid) = Option.some img ∧
      (∀ q, q ≠ captureFilePath t tid → fs2.readFile q = fs.readFile q) := by
  have hc : (!truthy (Option.some url) || !truthy (Option.some t) ||
      !(["before", "after"].contains ((Option.some t).getD ""))) = false := by
    rcases ht with rfl | rfl <;> simp [truthy, hu]
  have htt : (!truthy (Option.some tid)) = false := by simp [truthy, htid]
  have hparent : parentDir (captureFilePath t tid) = timeDirOf t := by
    rw [captureFilePath_plain t tid ht hsplit]
    rcases ht with rfl | rfl <;> rfl
  have hd : (((fs.mkdirIfAbsent uploadsDir).mkdirIfAbsent
      (timeDirOf t)).mkdirIfAbsent diffDirPath).dirExists
        (parentDir (captureFilePath t tid)) = true := by
    rw [hparent]
    exact dirExists_mkdirIfAbsent_mono _ _ _
      (dirExists_mkdirIfAbsent_self _ _)
  obtain ⟨fs2, hwrite⟩ : ∃ x, (((fs.mkdirIfAbsent uploadsDir).mkdirIfAbsent
      (timeDirOf t)).mkdirIfAbsent diffDirPath).writeFileSync
        (captureFilePath t tid) img = Except.ok x := by
    rw [FS.writeFileSync, if_pos hd]
    exact ⟨_, rfl⟩
  refine ⟨fs2, ?_, writeFileSync_readFile_self _ _ _ _ hwrite, ?_⟩
  · rw [captureHandler, if_neg (by rw [hc]; decide),
      if_neg (by rw [htt]; decide)]
    simp only [Option.getD_some, List.foldl_cons, List.foldl_nil,
      hl, hn, hv, hg, hs]
    rw [show joinPath (timeDirOf t) [tid ++ ".png"] =
      captureFilePath t tid from rfl]
    rw [hwrite]
  · intro q hq
    rw [writeFileSync_readFile_other _ _ _ _ _ hwrite hq]
    rw [mkdirIfAbsent_readFile, mkdirIfAbsent_readFile,
      mkdirIfAbsent_readFile]

/-- C6: a successful Capture for a valid `(url, time, testId)` writes
exactly one file, at the deterministic path for `(time, testId)` —
`uploads/<time>/<testId>.png` — and the response `imagePath` is the
matching `/uploads/<time>/<testId>.png`; a second successful Capture
with the same `(time, testId)` leaves exactly one file at that key,
holding the second capture's image (last write wins, no versioning). -/
theorem capture_deterministic_path_overwrite (env env2 : BrowserEnv)
    (fs : FS) (url url2 t tid : String) (img img2 : Image)
    (hu : url ≠ "") (hu2 : url2 ≠ "")
    (ht : t = "before" ∨ t = "after") (htid : tid ≠ "")
    (hsplit : splitSegs (tid ++ ".png") = [tid ++ ".png"])
    (hl : env.launchResult = Except.ok ())
    (hn : env.newPageResult = Except.ok ())
    (hv : env.setViewportResult = Except.ok ())
    (hg : env.gotoResult url = Except.ok ())
    (hs : env.screenshotResult = Except.ok img)
    (hl2 : env2.launchResult = Except.ok ())
    (hn2 : env2.newPageResult = Except.ok ())
    (hv2 : env2.setViewportResult = Except.ok ())
    (hg2 : env2.gotoResult url2 = Except.ok ())
    (hs2 : env2.screenshotResult = Except.ok img2) :
    ∃ fs2 fs3,
      captureHandler env fs
          ⟨Option.some url, Option.some t, Option.some tid⟩ =
        { response := ApiResponse.captureOk
            ("/uploads/" ++ t ++ "/" ++ (tid ++ ".png")) t tid env.now,
          fs := fs2, launched := 1, closed := 1 } ∧
      fs2.readFile (captureFilePath t tid) = Option.some img ∧
      (∀ q, q ≠ captureFilePath t tid → fs2.readFile q = fs.readFile q) ∧
      captureHandler env2 fs2
          ⟨Option.some url2, Option.some t, Option.some tid⟩ =
        { response := ApiResponse.captureOk
            ("/uploads/" ++ t ++ "/" ++ (tid ++ ".png")) t tid env2.now,
          fs := fs3, launched := 1, closed := 1 } ∧
      fs3.readFile (captureFilePath t tid) = Option.some img2 ∧
      (∀ q, q ≠ captureFilePath t tid → fs3.readFile q = fs.readFile q) ∧
      captureFilePath t tid = ["app", "uploads", t, tid ++ ".png"] := by
  obtain ⟨fs2, h1, h2, h3⟩ :=
    capture_success_char env fs url t tid img hu ht htid hsplit
      hl hn hv hg hs
  obtain ⟨fs3, h4, h5, h6⟩ :=
    capture_success_char env2 fs2 url2 t tid img2 hu2 ht htid hsplit
      hl2 hn2 hv2 hg2 hs2
  exact ⟨fs2, fs3, h1, h2, h3, h4, h5,
    fun q hq => (h6 q hq).trans (h3 q hq),
    captureFilePath_plain t tid ht hsplit⟩

/-- Witness for C6: two successful captures of `t1`/`before` from the
empty file system, rendering `imgA` then `imgB`. -/
theorem capture_deterministic_path_overwrite_w :
    ∃ fs2 fs3,
      captureHandler envOkA fsEmpty
          ⟨Option.some "http://a", Option.some "before",
            Option.some "t1"⟩ =
        { response := ApiResponse.captureOk
            ("/uploads/" ++ "before" ++ "/" ++ ("t1" ++ ".png"))
            "before" "t1" envOkA.now,
          fs := fs2, launched := 1, closed := 1 } ∧
      fs2.readFile (captureFilePath "before" "t1") = Option.some imgA ∧
      (∀ q, q ≠ captureFilePath "before" "t1" →
        fs2.readFile q = fsEmpty.readFile q) ∧
      captureHandler envOkB fs2
          ⟨Option.some "http://b", Option.some "before",
            Option.some "t1"⟩ =
        { response := ApiResponse.captureOk
            ("/uploads/" ++ "before" ++ "/" ++ ("t1" ++ ".png"))
            "before" "t1" envOkB.now,
          fs := fs3, launched := 1, closed := 1 } ∧
      fs3.readFile (captureFilePath "before" "t1") = Option.some imgB ∧
      (∀ q, q ≠ captureFilePath "before" "t1" →
        fs3.readFile q = fsEmpty.readFile q) ∧
      captureFilePath "before" "t1" =
        ["app", "uploads", "before", "t1" ++ ".png"] :=
  capture_deterministic_path_overwrite envOkA envOkB fsEmpty
    "http://a" "http://b" "before" "t1" imgA imgB
    (by decide) (by decide) (Or.inl rfl) (by decide) (by decide)
    rfl rfl rfl rfl rfl rfl rfl rfl rfl rfl

/-- C8 counterexample: a state in which both before/after images of `t1`
exist but the `diff` directory does not.  The compare handler performs no
directory creation, so its diff write throws `ENOENT` and the request
fails with a 500 — the write did not succeed even though every input was
valid, contradicting the claim that every write of the system is
preceded by lazy directory creation. -/
theorem compare_write_fails_without_diff_dir :
    compareHandler fsNoDiffDir ⟨Option.some "t1"⟩ =
      { response := ApiResponse.err 500 "Failed to compare images"
          (ErrDetails.message "ENOENT"),
        fs := fsNoDiffDir } := by
  decide

/-- C8 (amended): Capture creates the base, time-label and diff
directories lazily and idempotently before its write, so a valid Capture
succeeds from any prior directory state; Compare, by contrast, performs
no directory creation — its diff write relies on the diff directory
already existing (as a prior Capture ensures), succeeding then. -/
theorem dirs_created_capture_only (env : BrowserEnv) (fs fsc : FS)
    (url t tid tidc : String) (img img1 img2 : Image)
    (hu : url ≠ "") (ht : t = "before" ∨ t = "after") (htid : tid ≠ "")
    (hsplit : splitSegs (tid ++ ".png") = [tid ++ ".png"])
    (hl : env.launchResult = Except.ok ())
    (hn : env.newPageResult = Except.ok ())
    (hv : env.setViewportResult = Except.ok ())
    (hg : env.gotoResult url = Except.ok ())
    (hs : env.screenshotResult = Except.ok img)
    (htc : tidc ≠ "")
    (hb : fsc.readFile (beforeFilePath tidc) = Option.some img1)
    (ha : fsc.readFile (afterFilePath tidc) = Option.some img2)
    (hwd : img1.width = img2.width) (hhd : img1.height = img2.height)
    (hdir : fsc.dirExists (parentDir (diffFilePath tidc)) = true) :
    (∃ fs2, captureHandler env fs
        ⟨Option.some url, Option.some t, Option.some tid⟩ =
      { response := ApiResponse.captureOk
          ("/uploads/" ++ t ++ "/" ++ (tid ++ ".png")) t tid env.now,
        fs := fs2, launched := 1, closed := 1 }) ∧
    (∀ p : Path, (fs.mkdirIfAbsent p).mkdirIfAbsent p =
      fs.mkdirIfAbsent p) ∧
    (∃ fsd, compareHandler fsc ⟨Option.some tidc⟩ =
      { response := ApiResponse.compareOk
          ("/uploads/diff/" ++ tidc ++ ".png")
          ("/uploads/before/" ++ tidc ++ ".png")
          ("/uploads/after/" ++ tidc ++ ".png")
          (toFixed2
            (pixelmatch img1.data img2.data img1.width img1.height).1
            (img1.width * img1.height)) tidc,
        fs := fsd }) := by
  obtain ⟨fs2, h1, _, _⟩ :=
    capture_success_char env fs url t tid img hu ht htid hsplit
      hl hn hv hg hs
  obtain ⟨fsd, _, hres⟩ :=
    compare_success_char fsc tidc img1 img2 htc hb ha hwd hhd hdir
  exact ⟨⟨fs2, h1⟩, fun p => mkdirIfAbsent_idem fs p, ⟨fsd, hres⟩⟩

/-- Witness for the amended C8: capture from the empty file system, and
compare in a state whose diff directory exists. -/
theorem dirs_created_capture_only_w :
    (∃ fs2, captureHandler envOkA fsEmpty
        ⟨Option.some "http://a", Option.some "before",
          Option.some "t1"⟩ =
      { response := ApiResponse.captureOk
          ("/uploads/" ++ "before" ++ "/" ++ ("t1" ++ ".png"))
          "before" "t1" envOkA.now,
        fs := fs2, launched := 1, closed := 1 }) ∧
    (∀ p : Path, (fsEmpty.mkdirIfAbsent p).mkdirIfAbsent p =
      fsEmpty.mkdirIfAbsent p) ∧
    (∃ fsd, compareHandler fsIdentical ⟨Option.some "t1"⟩ =
      { response := ApiResponse.compareOk
          ("/uploads/diff/" ++ "t1" ++ ".png")
          ("/uploads/before/" ++ "t1" ++ ".png")
          ("/uploads/after/" ++ "t1" ++ ".png")
          (toFixed2
            (pixelmatch imgA.data imgA.data imgA.width imgA.height).1
            (imgA.width * imgA.height)) "t1",
        fs := fsd }) :=
  dirs_created_capture_only envOkA fsEmpty fsIdentical
    "http://a" "before" "t1" "t1" imgA imgA imgA
    (by decide) (Or.inl rfl) (by decide) (by decide)
    rfl rfl rfl rfl rfl
    (by decide) (by decide) (by decide) rfl rfl (by decide)

end VisualTest
